import Mathlib

/-!
Shallow embedding of `shell/renderer/api/electron_api_renderer_ipc.cc`:
the renderer-side `IPCRenderer` endpoint of Electron's renderer/browser
message bridge.  The endpoint's six operations (`send`, `sendSync`,
`sendTo`, `sendToHost`, `invoke`, `postMessage`) are modelled as pure
functions over a bundle of external collaborators (the value codec, gin
conversion, blink's port disentangler, and the browser's synchronous
reply behaviour); each operation reports the remote-stub calls it made,
the exception it left pending, and (for `postMessage`) the trace of its
observable steps.
-/

set_option autoImplicit false

namespace Electron

/-- blink::CloneableMessage — the portable serialized form of a value as
produced by electron::SerializeV8Value; opaque bytes at this layer. -/
structure CloneableMessage where
  payload : List Nat
deriving DecidableEq, Repr

/-- A blink::MessagePortChannel handle, opaque at this layer. -/
abbrev MessagePortChannel := Nat

/-- A v8 object nominated in the transfer list, opaque at this layer. -/
abbrev V8Object := Nat

/-- blink::TransferableMessage — a CloneableMessage together with the
`ports` moved with it (IPCRenderer::PostMessage fills `ports` after
extraction). -/
structure TransferableMessage where
  payload : List Nat
  ports : List MessagePortChannel
deriving DecidableEq, Repr

/-- One call on the electron::mojom::ElectronBrowserPtr remote stub —
the six mojo primitives the endpoint drives: Message, Invoke,
ReceivePostMessage, MessageTo, MessageHost, MessageSync. -/
inductive StubCall where
  | message (internal : Bool) (channel : String) (msg : CloneableMessage)
  | invoke (internal : Bool) (channel : String) (msg : CloneableMessage)
  | receivePostMessage (channel : String) (msg : TransferableMessage)
  | messageTo (internal sendToAll : Bool) (webContentsId : Int)
      (channel : String) (msg : CloneableMessage)
  | messageHost (channel : String) (msg : CloneableMessage)
  | messageSync (internal : Bool) (channel : String) (msg : CloneableMessage)
deriving DecidableEq, Repr

/-- The external collaborators IPCRenderer drives, bundled.  `V` is the
type of engine values (v8::Local<v8::Value>).  `serializeV8Value`
models electron::SerializeV8Value: `none` means it returned false, in
which case it leaves an exception pending in the isolate (the source
comments: "SerializeV8Value sets an exception.").  `deserializeV8Value`
models electron::DeserializeV8Value (also used by the gin converter
that resolves an invoke promise).  `convertFromV8ObjectList` models
gin::ConvertFromV8 to a vector of objects.
`disentangleAndExtractMessagePortChannel` models blink's
WebMessagePortConverter::DisentangleAndExtractMessagePortChannel, which
on success detaches the port from the caller's handle and yields its
channel.  `messageSyncReply` models the out-parameter the browser
writes for the blocking MessageSync call. -/
structure Isolate (V : Type) where
  serializeV8Value : V → Option CloneableMessage
  deserializeV8Value : CloneableMessage → V
  convertFromV8ObjectList : V → Option (List V8Object)
  disentangleAndExtractMessagePortChannel : V8Object → Option MessagePortChannel
  messageSyncReply : Bool → String → CloneableMessage → CloneableMessage

/-- Outcome of one endpoint operation: its return value, the calls made
(in order) on electron_browser_ptr_, and the exception the call leaves
pending in the isolate, if any. -/
structure OpResult (α : Type) where
  ret : α
  stubCalls : List StubCall
  exception : Option String
deriving Repr

/-- State of the v8 promise an invoke call returns. -/
inductive PromiseState (V : Type) where
  | pending
  | resolved (value : V)
deriving Repr

/-- Observable steps of IPCRenderer::PostMessage, in execution order:
running the codec on the payload, converting the transfer list,
attempting to disentangle one nominated object, and handing the message
to the remote stub. -/
inductive PMEvent where
  | serializePayload
  | convertTransferList
  | disentangle (t : V8Object)
  | shipMessage
deriving DecidableEq, Repr

/-- Result of the extraction loop of IPCRenderer::PostMessage:
`ports = none` when some nominated value was not a valid port (the loop
returned early), otherwise the extracted channels in nomination order;
`detached` lists the objects successfully disentangled — those ports
are detached from the caller even if a later nominee fails; `events`
records the disentangle attempts in order. -/
structure ExtractResult where
  ports : Option (List MessagePortChannel)
  detached : List V8Object
  events : List PMEvent
deriving DecidableEq, Repr

variable {V : Type}

/-- The `for (auto& transferable : transferables)` loop of
IPCRenderer::PostMessage: disentangle each nominated object left to
right, stopping at the first failure. -/
def extractLoop (iso : Isolate V) : List V8Object → ExtractResult
  | [] => ⟨some [], [], []⟩
  | t :: ts =>
    match iso.disentangleAndExtractMessagePortChannel t with
    | none => ⟨none, [], [PMEvent.disentangle t]⟩
    | some p =>
      let r := extractLoop iso ts
      ⟨r.ports.map (fun ps => p :: ps), t :: r.detached,
        PMEvent.disentangle t :: r.events⟩

/-- Outcome of IPCRenderer::PostMessage: the stub calls made, the
pending exception if any, the objects whose ports were detached from
the caller, and the ordered trace of observable steps. -/
structure PostMessageResult where
  stubCalls : List StubCall
  exception : Option String
  detached : List V8Object
  events : List PMEvent
deriving DecidableEq, Repr

namespace IPCRenderer

/-- IPCRenderer::Send — serialize, then Message; on serialization
failure return with the serializer's exception pending and nothing
sent. -/
def Send (iso : Isolate V) (internal : Bool) (channel : String)
    (arguments : V) : OpResult Unit :=
  match iso.serializeV8Value arguments with
  | none => ⟨(), [], some "SerializationError"⟩
  | some message =>
    ⟨(), [StubCall.message internal channel message], none⟩

/-- IPCRenderer::Invoke — serialize, then Invoke with a BindOnce
continuation resolving the returned promise; on serialization failure
return an empty promise handle (`none`) with the serializer's exception
pending.  On success the returned promise is still pending. -/
def Invoke (iso : Isolate V) (internal : Bool) (channel : String)
    (arguments : V) : OpResult (Option (PromiseState V)) :=
  match iso.serializeV8Value arguments with
  | none => ⟨none, [], some "SerializationError"⟩
  | some message =>
    ⟨some PromiseState.pending, [StubCall.invoke internal channel message],
      none⟩

/-- The continuation IPCRenderer::Invoke binds with base::BindOnce:
when the reply is delivered it resolves the promise with the reply,
which gin's CloneableMessage converter turns into a v8 value via
electron::DeserializeV8Value. -/
def invokeContinuation (iso : Isolate V) (result : CloneableMessage) :
    PromiseState V :=
  PromiseState.resolved (iso.deserializeV8Value result)

/-- IPCRenderer::SendTo — serialize, then MessageTo. -/
def SendTo (iso : Isolate V) (internal sendToAll : Bool)
    (webContentsId : Int) (channel : String) (arguments : V) :
    OpResult Unit :=
  match iso.serializeV8Value arguments with
  | none => ⟨(), [], some "SerializationError"⟩
  | some message =>
    ⟨(), [StubCall.messageTo internal sendToAll webContentsId channel
      message], none⟩

/-- IPCRenderer::SendToHost — serialize, then MessageHost. -/
def SendToHost (iso : Isolate V) (channel : String) (arguments : V) :
    OpResult Unit :=
  match iso.serializeV8Value arguments with
  | none => ⟨(), [], some "SerializationError"⟩
  | some message => ⟨(), [StubCall.messageHost channel message], none⟩

/-- IPCRenderer::SendSync — serialize, then the blocking MessageSync,
then deserialize the reply written into the out-parameter; on
serialization failure return the empty value handle (`none`) without
calling the stub. -/
def SendSync (iso : Isolate V) (internal : Bool) (channel : String)
    (arguments : V) : OpResult (Option V) :=
  match iso.serializeV8Value arguments with
  | none => ⟨none, [], some "SerializationError"⟩
  | some message =>
    let result := iso.messageSyncReply internal channel message
    ⟨some (iso.deserializeV8Value result),
      [StubCall.messageSync internal channel message], none⟩

/-- IPCRenderer::PostMessage — serialize the payload first; then, if a
transfer list was supplied, convert it to a vector of objects (throwing
"Invalid value for transfer" if that fails); then disentangle each
nominated object left to right, throwing the same error and aborting at
the first invalid one; finally attach the extracted ports and hand the
message to ReceivePostMessage. -/
def PostMessage (iso : Isolate V) (channel : String) (messageValue : V)
    (transfer : Option V) : PostMessageResult :=
  match iso.serializeV8Value messageValue with
  | none =>
    ⟨[], some "SerializationError", [], [PMEvent.serializePayload]⟩
  | some cm =>
    match transfer with
    | none =>
      ⟨[StubCall.receivePostMessage channel ⟨cm.payload, []⟩], none, [],
        [PMEvent.serializePayload, PMEvent.shipMessage]⟩
    | some tv =>
      match iso.convertFromV8ObjectList tv with
      | none =>
        ⟨[], some "Invalid value for transfer", [],
          [PMEvent.serializePayload, PMEvent.convertTransferList]⟩
      | some ts =>
        let r := extractLoop iso ts
        match r.ports with
        | none =>
          ⟨[], some "Invalid value for transfer", r.detached,
            PMEvent.serializePayload :: PMEvent.convertTransferList ::
              r.events⟩
        | some ports =>
          ⟨[StubCall.receivePostMessage channel ⟨cm.payload, ports⟩],
            none, r.detached,
            PMEvent.serializePayload :: PMEvent.convertTransferList ::
              (r.events ++ [PMEvent.shipMessage])⟩

end IPCRenderer

/-- The renderer-process facts the constructor consults:
WebLocalFrame::FrameForCurrentContext (a frame handle, when the current
execution context has one), RenderFrame::FromWebFrame, and the
interface registry binding a frame's remote ElectronBrowser stub. -/
structure RendererContext where
  frameForCurrentContext : Option Nat
  renderFrameOf : Nat → Nat
  remoteInterfaceOf : Nat → Nat

/-- GetCurrentRenderFrame — nullptr when the current context has no
frame, otherwise RenderFrame::FromWebFrame of that frame. -/
def GetCurrentRenderFrame (ctx : RendererContext) : Option Nat :=
  match ctx.frameForCurrentContext with
  | none => none
  | some f => some (ctx.renderFrameOf f)

/-- Outcome of constructing IPCRenderer: either the bound remote stub
handle, or the fatal DCHECK(render_frame) precondition failure (the
constructor has no recoverable error path). -/
inductive CtorOutcome where
  | ok (browserPtr : Nat)
  | fatalPreconditionFailure
deriving DecidableEq, Repr

/-- IPCRenderer::IPCRenderer — requires GetCurrentRenderFrame to be
non-null (DCHECK); when it is, binds electron_browser_ptr_ through the
frame's remote interface registry. -/
def IPCRenderer.construct (ctx : RendererContext) : CtorOutcome :=
  match GetCurrentRenderFrame ctx with
  | none => CtorOutcome.fatalPreconditionFailure
  | some rf => CtorOutcome.ok (ctx.remoteInterfaceOf rf)

/-- Modelled from the spec: the Pending-Call Table.  The correlation
machinery for invoke lives in the generated mojo bindings, not under
src/ (the source only registers a single-use BindOnce continuation with
the stub); per the spec, entries are created at call issuance and
removed exactly once when the matching reply arrives, and a reply
whose correlation id is unknown or already resolved is discarded.
`pending` holds outstanding correlation ids, `resolutions` logs each
delivered resolution in order. -/
structure CallTable where
  pending : List Nat
  resolutions : List (Nat × CloneableMessage)
deriving DecidableEq, Repr

/-- Modelled from the spec: registering a PendingCall at issuance of an
async-call. -/
def CallTable.register (t : CallTable) (id : Nat) : CallTable :=
  { t with pending := t.pending ++ [id] }

/-- Modelled from the spec: delivery of a reply.  A matching pending id
is resolved (logged) and removed immediately; an unknown or
already-resolved id is discarded without touching the table. -/
def CallTable.deliverReply (t : CallTable) (id : Nat)
    (reply : CloneableMessage) : CallTable :=
  if id ∈ t.pending then
    { pending := t.pending.erase id,
      resolutions := t.resolutions ++ [(id, reply)] }
  else t

/-- How many times the future keyed by `id` has been resolved. -/
def CallTable.resolveCount (t : CallTable) (id : Nat) : Nat :=
  (t.resolutions.filter (fun r => r.1 = id)).length

/-- Deliver a batch of replies in order. -/
def CallTable.deliverAll (t : CallTable)
    (replies : List (Nat × CloneableMessage)) : CallTable :=
  replies.foldl (fun s r => s.deliverReply r.1 r.2) t

/-- Position of the first occurrence of an event in a trace (length of
the trace when absent). -/
def idxOf (e : PMEvent) : List PMEvent → Nat
  | [] => 0
  | a :: rest => if a = e then 0 else idxOf e rest + 1

/-- A concrete collaborator bundle over Nat-coded engine values, used
to instantiate the theorems: value 0 fails serialization, any other
value encodes as a singleton payload; transfer-list value 1 fails
conversion, value 2 converts to objects [5, 9], any other value to
[5, 6]; object 9 is not a valid port, any other object disentangles to
channel t + 100; the browser's blocking reply appends 7 to the payload
it received. -/
def testIso : Isolate Nat where
  serializeV8Value v := if v = 0 then none else some ⟨[v]⟩
  deserializeV8Value m := m.payload.headD 0
  convertFromV8ObjectList v :=
    if v = 1 then none else if v = 2 then some [5, 9] else some [5, 6]
  disentangleAndExtractMessagePortChannel t :=
    if t = 9 then none else some (t + 100)
  messageSyncReply _ _ m := ⟨m.payload ++ [7]⟩

/-- A concrete renderer context whose current execution context has a
frame, used to instantiate the constructor theorem. -/
def testCtx : RendererContext where
  frameForCurrentContext := some 2
  renderFrameOf f := f + 10
  remoteInterfaceOf rf := rf * 2

theorem extractLoop_ports_none_of_mem (iso : Isolate V) {ts : List V8Object}
    {t : V8Object} (ht : t ∈ ts)
    (hfail : iso.disentangleAndExtractMessagePortChannel t = none) :
    (extractLoop iso ts).ports = none := by
  induction ts with
  | nil => cases ht
  | cons a as ih =>
    rcases List.mem_cons.mp ht with rfl | hmem
    · simp [extractLoop, hfail]
    · cases hda : iso.disentangleAndExtractMessagePortChannel a with
      | none => simp [extractLoop, hda]
      | some p => simp [extractLoop, hda, ih hmem]

theorem extractLoop_fail_at (iso : Isolate V) (k : Nat) (ts : List V8Object)
    (tf : V8Object) (rest : List V8Object)
    (hdrop : ts.drop k = tf :: rest)
    (hok : ∀ t ∈ ts.take k,
      (iso.disentangleAndExtractMessagePortChannel t).isSome = true)
    (hfail : iso.disentangleAndExtractMessagePortChannel tf = none) :
    (extractLoop iso ts).ports = none ∧
    (extractLoop iso ts).detached = ts.take k := by
  induction k generalizing ts with
  | zero =>
    simp only [List.drop_zero] at hdrop
    subst hdrop
    simp [extractLoop, hfail]
  | succ k ih =>
    cases ts with
    | nil => simp at hdrop
    | cons a as =>
      simp only [List.drop_succ_cons] at hdrop
      simp only [List.take_succ_cons] at hok ⊢
      have ha := hok a (List.mem_cons_self a _)
      cases hda : iso.disentangleAndExtractMessagePortChannel a with
      | none => rw [hda] at ha; simp at ha
      | some p =>
        have hrec := ih as hdrop (fun t htm => hok t (List.mem_cons_of_mem a htm))
        simp [extractLoop, hda, hrec.1, hrec.2]

theorem postMessage_events_shape (iso : Isolate V) (channel : String)
    (mv : V) (transfer : Option V) :
    ∃ rest, (IPCRenderer.PostMessage iso channel mv transfer).events =
      PMEvent.serializePayload :: rest := by
  cases h1 : iso.serializeV8Value mv with
  | none => exact ⟨[], by simp [IPCRenderer.PostMessage, h1]⟩
  | some cm =>
    cases transfer with
    | none =>
      exact ⟨[PMEvent.shipMessage], by simp [IPCRenderer.PostMessage, h1]⟩
    | some tv =>
      cases h2 : iso.convertFromV8ObjectList tv with
      | none =>
        exact ⟨[PMEvent.convertTransferList],
          by simp [IPCRenderer.PostMessage, h1, h2]⟩
      | some ts =>
        cases h3 : (extractLoop iso ts).ports with
        | none =>
          exact ⟨PMEvent.convertTransferList :: (extractLoop iso ts).events,
            by simp [IPCRenderer.PostMessage, h1, h2, h3]⟩
        | some ports =>
          exact ⟨PMEvent.convertTransferList ::
              ((extractLoop iso ts).events ++ [PMEvent.shipMessage]),
            by simp [IPCRenderer.PostMessage, h1, h2, h3]⟩

theorem idxOf_sp_lt_disentangle (rest : List PMEvent) (t : V8Object) :
    idxOf PMEvent.serializePayload (PMEvent.serializePayload :: rest) <
      idxOf (PMEvent.disentangle t) (PMEvent.serializePayload :: rest) := by
  simp [idxOf]

/-- Claim C1: for every one of the six endpoint operations, if
serialization of the supplied value fails then the operation returns
before invoking any remote-stub primitive: no message is handed to the
transport. -/
theorem sendOps_fail_closed (V : Type) (iso : Isolate V)
    (internal sendToAll : Bool) (webContentsId : Int) (channel : String)
    (a : V) (transfer : Option V)
    (h : iso.serializeV8Value a = none) :
    (IPCRenderer.Send iso internal channel a).stubCalls = [] ∧
    (IPCRenderer.SendSync iso internal channel a).stubCalls = [] ∧
    (IPCRenderer.SendTo iso internal sendToAll webContentsId channel
      a).stubCalls = [] ∧
    (IPCRenderer.SendToHost iso channel a).stubCalls = [] ∧
    (IPCRenderer.Invoke iso internal channel a).stubCalls = [] ∧
    (IPCRenderer.PostMessage iso channel a transfer).stubCalls = [] := by
  refine ⟨?_, ?_, ?_, ?_, ?_, ?_⟩ <;>
    simp [IPCRenderer.Send, IPCRenderer.SendSync, IPCRenderer.SendTo,
      IPCRenderer.SendToHost, IPCRenderer.Invoke, IPCRenderer.PostMessage, h]

theorem sendOps_fail_closed_witness :
    (IPCRenderer.Send testIso true "ch" 0).stubCalls = [] ∧
    (IPCRenderer.SendSync testIso true "ch" 0).stubCalls = [] ∧
    (IPCRenderer.SendTo testIso true false 7 "ch" 0).stubCalls = [] ∧
    (IPCRenderer.SendToHost testIso "ch" 0).stubCalls = [] ∧
    (IPCRenderer.Invoke testIso true "ch" 0).stubCalls = [] ∧
    (IPCRenderer.PostMessage testIso "ch" 0 (some 4)).stubCalls = [] :=
  sendOps_fail_closed Nat testIso true false 7 "ch" 0 (some 4) (by decide)

/-- Claim C3: sendSync returns the deserialization of the reply the
blocking MessageSync call produced when the argument serializes, and
returns the empty value with nothing transmitted when it does not. -/
theorem sendSync_returns_decoded_reply (V : Type) (iso : Isolate V)
    (internal : Bool) (channel : String) (a b : V) (cm : CloneableMessage)
    (hok : iso.serializeV8Value a = some cm)
    (hfail : iso.serializeV8Value b = none) :
    (IPCRenderer.SendSync iso internal channel a).ret =
      some (iso.deserializeV8Value (iso.messageSyncReply internal channel cm)) ∧
    (IPCRenderer.SendSync iso internal channel a).stubCalls =
      [StubCall.messageSync internal channel cm] ∧
    (IPCRenderer.SendSync iso internal channel b).ret = none ∧
    (IPCRenderer.SendSync iso internal channel b).stubCalls = [] := by
  refine ⟨?_, ?_, ?_, ?_⟩ <;> simp [IPCRenderer.SendSync, hok, hfail]

theorem sendSync_returns_decoded_reply_witness :
    (IPCRenderer.SendSync testIso true "ch" 3).ret =
      some (testIso.deserializeV8Value
        (testIso.messageSyncReply true "ch" ⟨[3]⟩)) ∧
    (IPCRenderer.SendSync testIso true "ch" 3).stubCalls =
      [StubCall.messageSync true "ch" ⟨[3]⟩] ∧
    (IPCRenderer.SendSync testIso true "ch" 0).ret = none ∧
    (IPCRenderer.SendSync testIso true "ch" 0).stubCalls = [] :=
  sendSync_returns_decoded_reply Nat testIso true "ch" 3 0 ⟨[3]⟩
    (by decide) (by decide)

/-- Claim C4: invoke returns a still-pending promise, hands the
serialized message to the stub's Invoke primitive, and the bound
continuation resolves the promise with the decoded reply when the
matching reply arrives; this holds whenever the argument serializes. -/
theorem invoke_returns_resolving_promise (V : Type) (iso : Isolate V)
    (internal : Bool) (channel : String) (a : V) (cm : CloneableMessage)
    (hok : iso.serializeV8Value a = some cm) :
    (IPCRenderer.Invoke iso internal channel a).ret =
      some PromiseState.pending ∧
    (IPCRenderer.Invoke iso internal channel a).stubCalls =
      [StubCall.invoke internal channel cm] ∧
    ∀ reply : CloneableMessage, IPCRenderer.invokeContinuation iso reply =
      PromiseState.resolved (iso.deserializeV8Value reply) := by
  refine ⟨?_, ?_, fun _ => rfl⟩ <;> simp [IPCRenderer.Invoke, hok]

theorem invoke_returns_resolving_promise_witness :
    (IPCRenderer.Invoke testIso true "ch" 3).ret =
      some PromiseState.pending ∧
    (IPCRenderer.Invoke testIso true "ch" 3).stubCalls =
      [StubCall.invoke true "ch" ⟨[3]⟩] ∧
    ∀ reply : CloneableMessage, IPCRenderer.invokeContinuation testIso reply =
      PromiseState.resolved (testIso.deserializeV8Value reply) :=
  invoke_returns_resolving_promise Nat testIso true "ch" 3 ⟨[3]⟩ (by decide)

/-- Claim C7: endpoint construction succeeds, binding the transport
handle through the frame's interface registry, exactly when the current
execution context has a frame; absence of a frame is the fatal
precondition failure, the only non-ok outcome. -/
theorem construct_requires_frame (ctx : RendererContext) (f : Nat)
    (h : ctx.frameForCurrentContext = some f) :
    IPCRenderer.construct ctx =
      CtorOutcome.ok (ctx.remoteInterfaceOf (ctx.renderFrameOf f)) ∧
    ∀ c : RendererContext,
      (IPCRenderer.construct c = CtorOutcome.fatalPreconditionFailure ↔
        c.frameForCurrentContext = none) := by
  constructor
  · simp [IPCRenderer.construct, GetCurrentRenderFrame, h]
  · intro c
    cases hc : c.frameForCurrentContext <;>
      simp [IPCRenderer.construct, GetCurrentRenderFrame, hc]

theorem construct_requires_frame_witness :
    IPCRenderer.construct testCtx =
      CtorOutcome.ok (testCtx.remoteInterfaceOf (testCtx.renderFrameOf 2)) :=
  (construct_requires_frame testCtx 2 (by decide)).1

/-- Claim C10: a postMessage whose transfer argument is present but not
convertible to a sequence of objects throws "Invalid value for
transfer" before any per-entry validation: no message is sent and no
port is extracted. -/
theorem postMessage_invalid_transfer_list_rejected (V : Type)
    (iso : Isolate V) (channel : String) (mv tv : V) (cm : CloneableMessage)
    (hok : iso.serializeV8Value mv = some cm)
    (hconv : iso.convertFromV8ObjectList tv = none) :
    (IPCRenderer.PostMessage iso channel mv (some tv)).exception =
      some "Invalid value for transfer" ∧
    (IPCRenderer.PostMessage iso channel mv (some tv)).stubCalls = [] ∧
    (IPCRenderer.PostMessage iso channel mv (some tv)).detached = [] ∧
    (IPCRenderer.PostMessage iso channel mv (some tv)).events =
      [PMEvent.serializePayload, PMEvent.convertTransferList] := by
  refine ⟨?_, ?_, ?_, ?_⟩ <;> simp [IPCRenderer.PostMessage, hok, hconv]

theorem postMessage_invalid_transfer_list_rejected_witness :
    (IPCRenderer.PostMessage testIso "c" 3 (some 1)).exception =
      some "Invalid value for transfer" ∧
    (IPCRenderer.PostMessage testIso "c" 3 (some 1)).stubCalls = [] ∧
    (IPCRenderer.PostMessage testIso "c" 3 (some 1)).detached = [] ∧
    (IPCRenderer.PostMessage testIso "c" 3 (some 1)).events =
      [PMEvent.serializePayload, PMEvent.convertTransferList] :=
  postMessage_invalid_transfer_list_rejected Nat testIso "c" 3 1 ⟨[3]⟩
    (by decide) (by decide)

/-- Claim C2 (counterexample): the claim that port extraction precedes
serialization of the payload is false on the code — at this concrete
call the payload-serialization step occurs at position 0 of the trace,
strictly before the extraction of nominated object 5. -/
theorem postMessage_extraction_first_counterexample :
    PMEvent.disentangle 5 ∈
      (IPCRenderer.PostMessage testIso "c" 3 (some 4)).events ∧
    ¬ (idxOf (PMEvent.disentangle 5)
          (IPCRenderer.PostMessage testIso "c" 3 (some 4)).events <
        idxOf PMEvent.serializePayload
          (IPCRenderer.PostMessage testIso "c" 3 (some 4)).events) := by
  decide

/-- Claim C2 (amended): in every postMessage call, Codec serialization
of the message payload precedes the Port Extractor's run against the
explicit transfer list — each extraction of a nominated value occurs
strictly after the payload-serialization step in the operation's
trace. -/
theorem postMessage_serialization_before_extraction (V : Type)
    (iso : Isolate V) (channel : String) (mv : V) (transfer : Option V)
    (t : V8Object)
    (h : PMEvent.disentangle t ∈
      (IPCRenderer.PostMessage iso channel mv transfer).events) :
    idxOf PMEvent.serializePayload
        (IPCRenderer.PostMessage iso channel mv transfer).events <
      idxOf (PMEvent.disentangle t)
        (IPCRenderer.PostMessage iso channel mv transfer).events := by
  obtain ⟨rest, hev⟩ := postMessage_events_shape iso channel mv transfer
  rw [hev]
  exact idxOf_sp_lt_disentangle rest t

theorem postMessage_serialization_before_extraction_witness :
    idxOf PMEvent.serializePayload
        (IPCRenderer.PostMessage testIso "d" 3 (some 4)).events <
      idxOf (PMEvent.disentangle 6)
        (IPCRenderer.PostMessage testIso "d" 3 (some 4)).events :=
  postMessage_serialization_before_extraction Nat testIso "d" 3 (some 4) 6
    (by decide)

/-- Claim C5: a postMessage whose transfer list contains a nominated
value that is not a valid port throws "Invalid value for transfer" and
aborts the whole send with no message transmitted; and whenever a
message is handed to the stub, its ports are exactly the successful
extraction of the entire nominated list. -/
theorem postMessage_no_partial_transfer (V : Type) (iso : Isolate V)
    (channel : String) (mv tv : V) (cm : CloneableMessage)
    (ts : List V8Object) (t : V8Object)
    (hok : iso.serializeV8Value mv = some cm)
    (hconv : iso.convertFromV8ObjectList tv = some ts)
    (hmem : t ∈ ts)
    (hfail : iso.disentangleAndExtractMessagePortChannel t = none) :
    (IPCRenderer.PostMessage iso channel mv (some tv)).exception =
      some "Invalid value for transfer" ∧
    (IPCRenderer.PostMessage iso channel mv (some tv)).stubCalls = [] ∧
    ∀ (tv2 : V) (us : List V8Object) (msg : TransferableMessage),
      iso.convertFromV8ObjectList tv2 = some us →
      StubCall.receivePostMessage channel msg ∈
        (IPCRenderer.PostMessage iso channel mv (some tv2)).stubCalls →
      (extractLoop iso us).ports = some msg.ports := by
  have hnone := extractLoop_ports_none_of_mem iso hmem hfail
  refine ⟨?_, ?_, ?_⟩
  · simp [IPCRenderer.PostMessage, hok, hconv, hnone]
  · simp [IPCRenderer.PostMessage, hok, hconv, hnone]
  · intro tv2 us msg hconv2 hship
    cases hp : (extractLoop iso us).ports with
    | none => simp [IPCRenderer.PostMessage, hok, hconv2, hp] at hship
    | some ports =>
      simp [IPCRenderer.PostMessage, hok, hconv2, hp] at hship
      subst hship
      simp [hp]

theorem postMessage_no_partial_transfer_witness :
    (IPCRenderer.PostMessage testIso "c" 3 (some 2)).exception =
      some "Invalid value for transfer" ∧
    (IPCRenderer.PostMessage testIso "c" 3 (some 2)).stubCalls = [] :=
  ⟨(postMessage_no_partial_transfer Nat testIso "c" 3 2 ⟨[3]⟩ [5, 9] 9
      (by decide) (by decide) (by decide) (by decide)).1,
   (postMessage_no_partial_transfer Nat testIso "c" 3 2 ⟨[3]⟩ [5, 9] 9
      (by decide) (by decide) (by decide) (by decide)).2.1⟩

/-- Claim C9: postMessage extracts nominated values left to right and
each successful extraction immediately detaches that port, so when the
entry at position k is invalid the first k entries (all valid) have
already been detached from the caller although no message is sent and
the error is thrown. -/
theorem postMessage_prefix_detached_on_failure (V : Type) (iso : Isolate V)
    (channel : String) (mv tv : V) (cm : CloneableMessage) (k : Nat)
    (ts : List V8Object) (tf : V8Object) (rest : List V8Object)
    (hok : iso.serializeV8Value mv = some cm)
    (hconv : iso.convertFromV8ObjectList tv = some ts)
    (hdrop : ts.drop k = tf :: rest)
    (hall : ∀ t ∈ ts.take k,
      (iso.disentangleAndExtractMessagePortChannel t).isSome = true)
    (hfail : iso.disentangleAndExtractMessagePortChannel tf = none) :
    (IPCRenderer.PostMessage iso channel mv (some tv)).detached =
      ts.take k ∧
    (IPCRenderer.PostMessage iso channel mv (some tv)).stubCalls = [] ∧
    (IPCRenderer.PostMessage iso channel mv (some tv)).exception =
      some "Invalid value for transfer" := by
  have h := extractLoop_fail_at iso k ts tf rest hdrop hall hfail
  refine ⟨?_, ?_, ?_⟩ <;>
    simp [IPCRenderer.PostMessage, hok, hconv, h.1, h.2]

theorem postMessage_prefix_detached_on_failure_witness :
    (IPCRenderer.PostMessage testIso "c" 3 (some 2)).detached =
      List.take 1 [5, 9] ∧
    (IPCRenderer.PostMessage testIso "c" 3 (some 2)).stubCalls = [] ∧
    (IPCRenderer.PostMessage testIso "c" 3 (some 2)).exception =
      some "Invalid value for transfer" :=
  postMessage_prefix_detached_on_failure Nat testIso "c" 3 2 ⟨[3]⟩ 1
    [5, 9] 9 [] (by decide) (by decide) (by decide) (by decide) (by decide)

/-- Claim C8: every serialization or transfer-validation failure is
reported synchronously at the call boundary as a pending exception, and
the failing call does not complete as a success: nothing is handed to
the stub, invoke returns the empty promise handle, sendSync the empty
value. -/
theorem errors_reported_synchronously (V : Type) (iso : Isolate V)
    (internal sendToAll : Bool) (webContentsId : Int) (channel : String)
    (a b tv tv2 : V) (cm : CloneableMessage) (ts : List V8Object)
    (t : V8Object) (tr : Option V)
    (hfa : iso.serializeV8Value a = none)
    (hb : iso.serializeV8Value b = some cm)
    (hc1 : iso.convertFromV8ObjectList tv = none)
    (hc2 : iso.convertFromV8ObjectList tv2 = some ts)
    (hmem : t ∈ ts)
    (hd : iso.disentangleAndExtractMessagePortChannel t = none) :
    ((IPCRenderer.Send iso internal channel a).exception.isSome = true ∧
      (IPCRenderer.Send iso internal channel a).stubCalls = []) ∧
    ((IPCRenderer.SendSync iso internal channel a).exception.isSome = true ∧
      (IPCRenderer.SendSync iso internal channel a).ret = none ∧
      (IPCRenderer.SendSync iso internal channel a).stubCalls = []) ∧
    ((IPCRenderer.SendTo iso internal sendToAll webContentsId channel
        a).exception.isSome = true ∧
      (IPCRenderer.SendTo iso internal sendToAll webContentsId channel
        a).stubCalls = []) ∧
    ((IPCRenderer.SendToHost iso channel a).exception.isSome = true ∧
      (IPCRenderer.SendToHost iso channel a).stubCalls = []) ∧
    ((IPCRenderer.Invoke iso internal channel a).exception.isSome = true ∧
      (IPCRenderer.Invoke iso internal channel a).ret = none ∧
      (IPCRenderer.Invoke iso internal channel a).stubCalls = []) ∧
    ((IPCRenderer.PostMessage iso channel a tr).exception.isSome = true ∧
      (IPCRenderer.PostMessage iso channel a tr).stubCalls = []) ∧
    ((IPCRenderer.PostMessage iso channel b
        (some tv)).exception.isSome = true ∧
      (IPCRenderer.PostMessage iso channel b (some tv)).stubCalls = []) ∧
    ((IPCRenderer.PostMessage iso channel b
        (some tv2)).exception.isSome = true ∧
      (IPCRenderer.PostMessage iso channel b (some tv2)).stubCalls = []) := by
  have hnone := extractLoop_ports_none_of_mem iso hmem hd
  refine ⟨⟨?_, ?_⟩, ⟨?_, ?_, ?_⟩, ⟨?_, ?_⟩, ⟨?_, ?_⟩, ⟨?_, ?_, ?_⟩,
    ⟨?_, ?_⟩, ⟨?_, ?_⟩, ⟨?_, ?_⟩⟩ <;>
    simp [IPCRenderer.Send, IPCRenderer.SendSync, IPCRenderer.SendTo,
      IPCRenderer.SendToHost, IPCRenderer.Invoke, IPCRenderer.PostMessage,
      hfa, hb, hc1, hc2, hnone]

theorem errors_reported_synchronously_witness :
    (IPCRenderer.Send testIso true "ch" 0).exception.isSome = true ∧
    (IPCRenderer.Send testIso true "ch" 0).stubCalls = [] :=
  (errors_reported_synchronously Nat testIso true false 7 "ch" 0 3 1 2
    ⟨[3]⟩ [5, 9] 9 none (by decide) (by decide) (by decide) (by decide)
    (by decide) (by decide)).1

theorem deliverReply_count_le (t : CallTable) (id id2 : Nat)
    (r : CloneableMessage)
    (h : t.pending.count id + t.resolveCount id ≤ 1) :
    (t.deliverReply id2 r).pending.count id +
      (t.deliverReply id2 r).resolveCount id ≤ 1 := by
  by_cases hmem : id2 ∈ t.pending
  · by_cases hid : id2 = id
    · subst hid
      have h1 : 0 < t.pending.count id2 := List.count_pos_iff.mpr hmem
      have h2 : (t.deliverReply id2 r).pending.count id2 =
          t.pending.count id2 - 1 := by
        simp [CallTable.deliverReply, hmem, List.count_erase_self]
      have h3 : (t.deliverReply id2 r).resolveCount id2 =
          t.resolveCount id2 + 1 := by
        simp [CallTable.deliverReply, hmem, CallTable.resolveCount,
          List.filter_append]
      omega
    · have hne : id ≠ id2 := fun hh => hid hh.symm
      have h2 : (t.deliverReply id2 r).pending.count id =
          t.pending.count id := by
        simp [CallTable.deliverReply, hmem, List.count_erase_of_ne hne]
      have h3 : (t.deliverReply id2 r).resolveCount id =
          t.resolveCount id := by
        simp [CallTable.deliverReply, hmem, CallTable.resolveCount,
          List.filter_append, hid]
      omega
  · simpa [CallTable.deliverReply, hmem] using h

theorem deliverAll_count_le (replies : List (Nat × CloneableMessage))
    (t : CallTable) (id : Nat)
    (h : t.pending.count id + t.resolveCount id ≤ 1) :
    (t.deliverAll replies).pending.count id +
      (t.deliverAll replies).resolveCount id ≤ 1 := by
  induction replies generalizing t with
  | nil => simpa [CallTable.deliverAll] using h
  | cons p ps ih =>
    simp only [CallTable.deliverAll, List.foldl_cons] at *
    exact ih _ (deliverReply_count_le t id p.1 p.2 h)

/-- Claim C6: a future registered in the Pending-Call Table resolves at
most once under any sequence of delivered replies, and a reply whose
correlation id is unknown (or already resolved and hence removed) is
discarded leaving the table untouched. -/
theorem pendingCall_single_resolution (t : CallTable) (id : Nat)
    (replies : List (Nat × CloneableMessage))
    (hinv : t.pending.count id + t.resolveCount id ≤ 1) :
    (t.deliverAll replies).resolveCount id ≤ 1 ∧
    ∀ reply : CloneableMessage, id ∉ t.pending →
      t.deliverReply id reply = t := by
  constructor
  · have h := deliverAll_count_le replies t id hinv
    omega
  · intro reply hnot
    simp [CallTable.deliverReply, hnot]

theorem pendingCall_single_resolution_witness :
    ((CallTable.mk [1] []).deliverAll
        [(1, ⟨[2]⟩), (1, ⟨[2]⟩)]).resolveCount 1 ≤ 1 :=
  (pendingCall_single_resolution ⟨[1], []⟩ 1 [(1, ⟨[2]⟩), (1, ⟨[2]⟩)]
    (by decide)).1

end Electron
